import Mathlib

/-!
Verification of the multi-bank consent/token/normalization backend.

Shallow embedding of the relevant Python code:
  - backend/services/auth_service.py   (authenticate_team, token cache)
  - backend/services/bank_service.py   (create_consent, get_accounts,
    get_transactions, revoke_consent)
  - backend/services/jwt_utils.py      (encode_token, decode_token)
  - backend/routes/auth.py             (create_consent, revoke_consent routes)
  - backend/routes/accounts.py         (list_transactions, _filter_transactions)
  - backend/routes/tax_payments.py     (pay_tax)

Machine state (token cache, transaction cache, consent table, tax-payment
record) is passed explicitly; every upstream HTTP interaction is a parameter
describing the upstream response, and the number of upstream calls actually
attempted is returned alongside the result.  Python exceptions are modelled
as values of `PyExc`; FastAPI HTTPException corresponds to `PyExc.http`.
-/

namespace SyntaxBackend

/-- Python exceptions as values: FastAPI `HTTPException(status_code, detail)`
or any other exception carrying its message. -/
inductive PyExc where
  | http (statusCode : Nat) (detail : String)
  | other (msg : String)
deriving Repr, DecidableEq

/-- Python truthiness of an optional string (`None` and `""` are falsy). -/
def truthyS : Option String → Bool
  | none => false
  | some s => !s.isEmpty

/-- Python `a or b` on optional strings (first operand if truthy, else second). -/
def pyOr (a b : Option String) : Option String := if truthyS a then a else b

/-- ASCII/Cyrillic lower-casing of one character, as Python `str.lower` acts on
the characters appearing in this code base. -/
def pyLowerChar (c : Char) : Char :=
  if 'A' ≤ c ∧ c ≤ 'Z' then Char.ofNat (c.toNat + 32)
  else if 'А' ≤ c ∧ c ≤ 'Я' then Char.ofNat (c.toNat + 32)
  else if c = 'Ё' then 'ё'
  else c

/-- Python `str.lower` restricted to the alphabets used in the code base. -/
def pyLower (s : String) : String := String.mk (s.toList.map pyLowerChar)

/-- `listInfix n h = true` iff `n` occurs as a contiguous run inside `h`
(Python `n in h` on strings, character-list level). -/
def listInfix (n : List Char) : List Char → Bool
  | [] => n.isEmpty
  | c :: t => n.isPrefixOf (c :: t) || listInfix n t

/-- Python substring test `needle in hay`. -/
def strContains (hay needle : String) : Bool := listInfix needle.toList hay.toList

theorem isPrefixOf_self (l : List Char) : l.isPrefixOf l = true := by
  induction l with
  | nil => rfl
  | cons c t ih => simp [List.isPrefixOf, ih]

theorem listInfix_append_self (n pre : List Char) : listInfix n (pre ++ n) = true := by
  induction pre with
  | nil =>
    cases n with
    | nil => rfl
    | cons c t => simp [listInfix, isPrefixOf_self]
  | cons c pre ih => simp [listInfix, ih]

theorem strContains_append_self (a b : String) : strContains (a ++ b) b = true := by
  have h : (a ++ b).toList = a.toList ++ b.toList := by
    simp [String.toList]
  simp [strContains, h, listInfix_append_self]

/-! ## Token cache and `authenticate_team` (auth_service.py lines 26-166)

The cache maps a client id to a token together with its absolute expiry
instant; time is modelled as an integer count of seconds. -/

structure TokenEntry where
  token : String
  expires_at : Int
deriving Repr, DecidableEq

/-- The module-level `_token_cache` dictionary. -/
abbrev TokenCache := List (String × TokenEntry)

def cacheLookup (c : TokenCache) (k : String) : Option TokenEntry :=
  (c.find? (fun p => p.1 == k)).map (·.2)

/-- Dictionary assignment `_token_cache[k] = v`. -/
def cacheInsert (c : TokenCache) (k : String) (v : TokenEntry) : TokenCache :=
  (k, v) :: c.filter (fun p => p.1 ≠ k)

theorem cacheLookup_insert (c : TokenCache) (k : String) (v : TokenEntry) :
    cacheLookup (cacheInsert c k v) k = some v := by
  simp [cacheLookup, cacheInsert, List.find?]

/-- Upstream response of `POST /auth/bank-token` as observed by the service:
a status code, whether the JSON body has a `detail` key, and the optional
`access_token` / `expires_in` fields; or a transport failure. -/
inductive AuthUpstream where
  | resp (statusCode : Nat) (hasDetail : Bool)
      (access_token : Option String) (expires_in : Option Int)
  | timeout
  | requestError (msg : String)
deriving Repr, DecidableEq

/-- The body of the upstream call in `authenticate_team` (auth_service.py
lines 77-165): classify the response, extract the token, store it in the
cache with the 300-second safety margin.  The third component counts the
upstream authentication calls made (always 1 here). -/
def authCallUpstream (cache : TokenCache) (client_id : String) (current_time : Int)
    (u : AuthUpstream) : Except PyExc (String × Int) × TokenCache × Nat :=
  match u with
  | .timeout => (.error (.http 503 "Ошибка соединения: истекло время ожидания"), cache, 1)
  | .requestError _ => (.error (.http 503 "Ошибка соединения с сервером"), cache, 1)
  | .resp sc hasDetail tok ei =>
    if sc = 401 then (.error (.http 401 "Неверные данные авторизации"), cache, 1)
    else if sc = 400 then (.error (.http 400 "Неверные параметры запроса"), cache, 1)
    else if 500 ≤ sc then
      (.error (.http 503 "Ошибка соединения с сервером авторизации"), cache, 1)
    else if 400 ≤ sc then (.error (.other "httpx.HTTPStatusError"), cache, 1)
    else if hasDetail ∧ tok = none then
      (.error (.http 401 "Неверные данные авторизации"), cache, 1)
    else if ¬ truthyS tok then (.error (.http 401 "Неверные данные авторизации"), cache, 1)
    else
      let t := tok.getD ""
      let expires_in := ei.getD 3600
      let expires_at := current_time + expires_in - 300
      (.ok (t, expires_in), cacheInsert cache client_id ⟨t, expires_at⟩, 1)

/-- The locked section of `authenticate_team`: the double-checked cache read
followed by the upstream call. -/
def authTeamLocked (cache : TokenCache) (client_id : String) (current_time : Int)
    (u : AuthUpstream) : Except PyExc (String × Int) × TokenCache × Nat :=
  match cacheLookup cache client_id with
  | some cached =>
    if current_time < cached.expires_at then
      (.ok (cached.token, cached.expires_at - current_time), cache, 0)
    else authCallUpstream cache client_id current_time u
  | none => authCallUpstream cache client_id current_time u

/-- auth_service.authenticate_team (lines 37-165): optimistic cache read,
then the locked double-check and upstream authentication. -/
def authenticate_team (cache : TokenCache) (client_id client_secret : String)
    (current_time : Int) (u : AuthUpstream) :
    Except PyExc (String × Int) × TokenCache × Nat :=
  if client_id = "" ∨ client_secret = "" then
    (.error (.http 400 "client_id and client_secret are required"), cache, 0)
  else
    match cacheLookup cache client_id with
    | some cached =>
      if current_time < cached.expires_at then
        (.ok (cached.token, cached.expires_at - current_time), cache, 0)
      else authTeamLocked cache client_id current_time u
    | none => authTeamLocked cache client_id current_time u

/-! ## `get_transactions` request parameters (bank_service.py lines 512-516) -/

structure TxParams where
  page : Int
  limit : Int
  offset : Int
deriving Repr, DecidableEq

/-- The query parameters built by `BankService.get_transactions` before the
upstream call: the caller-supplied limit is capped at 500. -/
def get_transactions_params (page limit offset : Int) : TxParams :=
  { page := page, limit := min limit 500, offset := offset }

/-! ## JSON values and account-list normalization (bank_service.py lines 423-437) -/

/-- Dynamic JSON values as manipulated by the Python code. -/
inductive Json where
  | null
  | bool (b : Bool)
  | num (n : Int)
  | str (s : String)
  | arr (items : List Json)
  | obj (fields : List (String × Json))
deriving Repr

/-- Python truthiness of a JSON value. -/
def Json.isTruthy : Json → Bool
  | .null => false
  | .bool b => b
  | .num n => n != 0
  | .str s => !s.isEmpty
  | .arr l => !l.isEmpty
  | .obj l => !l.isEmpty

/-- Dictionary key lookup; `none` when the value is not a dict or the key is
absent. -/
def Json.getKey : Json → String → Option Json
  | .obj fields, k => (fields.find? (fun p => p.1 == k)).map (·.2)
  | _, _ => none

/-- The normalization block of `BankService.get_accounts` (lines 423-437):
unwrap `{accounts: ...}`, then the nested `{data: {account: [...]}}` shape,
then coerce to a list.  `.get("account", [])` on a non-dict raises, modelled
by the error case. -/
def normalize_accounts (data : Json) : Except PyExc (List Json) := do
  let a1 : Json :=
    match data with
    | .obj _ => (data.getKey "accounts").getD data
    | _ => data
  let a2 : Json ←
    match a1 with
    | .obj _ =>
      if (a1.getKey "data").isSome then
        match (a1.getKey "data").getD .null with
        | .obj fields => pure (((Json.obj fields).getKey "account").getD (.arr []))
        | _ => throw (.other "AttributeError")
      else pure a1
    | _ => pure a1
  match a2 with
  | .arr l => pure l
  | x => pure (if x.isTruthy then [x] else [])

/-! ## Claim theorems: token cache (C2) and transaction limit cap (C10) -/

/-- C2: a second `authenticate_team` call for the same client while the
cached entry is within the safety-margined ttl window (stored expiry
`t0 + expires_in - 300` not yet passed) returns the identical cached token
and makes no upstream call: exactly one upstream call across both calls,
whatever the upstream would have answered the second time. -/
theorem authenticate_team_cached_no_second_call
    (cache : TokenCache) (cid secret : String) (t0 t1 : Int)
    (hd : Bool) (tok : String) (ei : Int) (u2 : AuthUpstream)
    (hcid : cid ≠ "") (hsec : secret ≠ "")
    (hmiss : cacheLookup cache cid = none)
    (htok : tok ≠ "")
    (hfresh : t1 < t0 + ei - 300) :
    (authenticate_team cache cid secret t0 (.resp 200 hd (some tok) (some ei))).1
        = .ok (tok, ei)
    ∧ (authenticate_team cache cid secret t0 (.resp 200 hd (some tok) (some ei))).2.2 = 1
    ∧ (authenticate_team
        (authenticate_team cache cid secret t0 (.resp 200 hd (some tok) (some ei))).2.1
        cid secret t1 u2).1 = .ok (tok, t0 + ei - 300 - t1)
    ∧ (authenticate_team
        (authenticate_team cache cid secret t0 (.resp 200 hd (some tok) (some ei))).2.1
        cid secret t1 u2).2.2 = 0 := by
  have hne : ¬ (cid = "" ∨ secret = "") := by
    rintro (h | h) <;> [exact hcid h; exact hsec h]
  have htok2 : tok.isEmpty = false :=
    Bool.eq_false_iff.mpr (fun h => htok ((String.isEmpty_iff tok).mp h))
  have h1 : authenticate_team cache cid secret t0 (.resp 200 hd (some tok) (some ei))
      = (.ok (tok, ei), cacheInsert cache cid ⟨tok, t0 + ei - 300⟩, 1) := by
    simp only [authenticate_team, if_neg hne, hmiss, authTeamLocked, authCallUpstream]
    simp [truthyS, htok2]
  have h2 : cacheLookup (cacheInsert cache cid ⟨tok, t0 + ei - 300⟩) cid
      = some ⟨tok, t0 + ei - 300⟩ := cacheLookup_insert ..
  refine ⟨by rw [h1], by rw [h1], ?_, ?_⟩ <;>
  · rw [h1]
    simp [authenticate_team, if_neg hne, h2, hfresh]

/-- C2 witness: concrete two-call run with one upstream call total. -/
theorem authenticate_team_cached_no_second_call_witness :
    (authenticate_team [] "team286" "s3cret" 1000 (.resp 200 false (some "tokA") (some 3600))).1
        = .ok ("tokA", 3600)
    ∧ (authenticate_team [] "team286" "s3cret" 1000 (.resp 200 false (some "tokA") (some 3600))).2.2 = 1
    ∧ (authenticate_team
        (authenticate_team [] "team286" "s3cret" 1000 (.resp 200 false (some "tokA") (some 3600))).2.1
        "team286" "s3cret" 2000 .timeout).1 = .ok ("tokA", 1000 + 3600 - 300 - 2000)
    ∧ (authenticate_team
        (authenticate_team [] "team286" "s3cret" 1000 (.resp 200 false (some "tokA") (some 3600))).2.1
        "team286" "s3cret" 2000 .timeout).2.2 = 0 :=
  authenticate_team_cached_no_second_call [] "team286" "s3cret" 1000 2000 false "tokA" 3600
    .timeout (by decide) (by decide) rfl (by decide) (by decide)

/-- C10: the `limit` query parameter sent upstream by
`BankService.get_transactions` is `min limit 500` for every caller-supplied
limit: values at most 500 pass through unchanged, larger values are capped
to exactly 500. -/
theorem get_transactions_limit_capped (page limit offset : Int) :
    (get_transactions_params page limit offset).limit = min limit 500 := rfl

/-- C5: the three upstream account-list payload shapes carrying the same
underlying list — bare array, `{accounts: [...]}`, and nested
`{data: {account: [...]}}` — all normalize to that same flat list. -/
theorem normalize_accounts_three_shapes (l : List Json) :
    normalize_accounts (.arr l) = .ok l
    ∧ normalize_accounts (.obj [("accounts", .arr l)]) = .ok l
    ∧ normalize_accounts (.obj [("data", .obj [("account", .arr l)])]) = .ok l := by
  refine ⟨rfl, ?_, ?_⟩ <;>
    simp [normalize_accounts, Json.getKey, List.find?, bind, Except.bind, pure, Except.pure]

/-! ## Session token codec (jwt_utils.py lines 20-113) -/

structure JwtClaims where
  access_token : String
  client_id : String
  token_type : String
  expires_in : Int
  iat : Int
  exp : Int
  client_secret : Option String
deriving Repr, DecidableEq

/-- A signed JWS compact token: payload plus signing key.  HMAC signing is
modelled as ideal: verification succeeds exactly when the keys agree. -/
structure SignedToken where
  payload : JwtClaims
  key : String
deriving Repr, DecidableEq

def JWT_EXPIRY_MINUTES : Int := 30

/-- Python `a or b` where `a` is an optional int (`None` and `0` are falsy). -/
def pyOrInt (a : Option Int) (b : Int) : Int :=
  match a with
  | some v => if v ≠ 0 then v else b
  | none => b

/-- jwt_utils.encode_token (lines 20-73): build the payload with a 30-minute
`exp`; the `client_secret` key is added only when the argument is truthy
(so an empty-string secret is dropped). -/
def encode_token (access_token client_id : String) (expires_in : Int)
    (bank_token_expires_in : Option Int) (client_secret : Option String)
    (now : Int) (secretKey : String) : SignedToken :=
  { payload :=
      { access_token := access_token, client_id := client_id, token_type := "bearer",
        expires_in := pyOrInt bank_token_expires_in expires_in,
        iat := now, exp := now + JWT_EXPIRY_MINUTES * 60,
        client_secret := if truthyS client_secret then client_secret else none },
    key := secretKey }

inductive JwtError where
  | expired
  | invalid
deriving Repr, DecidableEq

structure DecodedClaims where
  claims : JwtClaims
  bank_token : String
deriving Repr, DecidableEq

/-- jwt_utils.decode_token (lines 76-113): verify the signature, raise
`ExpiredSignatureError` when `exp ≤ now` (PyJWT semantics, zero leeway),
otherwise return the payload with the `bank_token` alias added. -/
def decode_token (t : SignedToken) (secretKey : String) (now : Int) :
    Except JwtError DecodedClaims :=
  if t.key ≠ secretKey then .error .invalid
  else if t.payload.exp ≤ now then .error .expired
  else .ok { claims := t.payload, bank_token := t.payload.access_token }

/-! ## Consent creation (bank_service.py lines 57-204, auth.py lines 277-315) -/

/-- The JSON body of the upstream `POST /account-consents/request` response,
restricted to the keys the code reads. -/
structure ConsentApiData where
  consent_id : Option String
  id : Option String
  request_id : Option String
  status : Option String
  redirect_uri : Option String
deriving Repr, DecidableEq

/-- The normalized dict returned by `BankService.create_consent`. -/
structure ServiceConsentResult where
  consent_id : Option String
  request_id : Option String
  status : String
  redirect_url : Option String
deriving Repr, DecidableEq

/-- Banks created with `auto_approved = true` (bank_service.py line 90). -/
def AUTO_APPROVED_BANKS : List String := ["abank", "vbank"]

/-- Return-value computation of `BankService.create_consent` (lines 135-191):
extract `consent_id`/`id`, default the status to `"approved"` or `"pending"`
by approval mode, and fall back to `request_id` as consent id for a pending
response.  (The consent-table writes on lines 145-182 do not feed into the
returned dict and are not needed by the claims over this function.) -/
def create_consent (bank : String) (data : ConsentApiData) : ServiceConsentResult :=
  let auto_approved := bank ∈ AUTO_APPROVED_BANKS
  let consent_id0 := pyOr data.consent_id data.id
  let request_id := data.request_id
  let consent_status := data.status.getD (if auto_approved then "approved" else "pending")
  let consent_id :=
    if ¬ truthyS consent_id0 ∧ truthyS request_id ∧ consent_status = "pending" then request_id
    else consent_id0
  { consent_id := consent_id, request_id := request_id, status := consent_status,
    redirect_url := data.redirect_uri }

/-- The `ConsentResponse` model returned by the `POST /api/consents` route. -/
structure ConsentResponse where
  status : String
  consent_id : Option String
  request_id : Option String
  redirect_url : Option String
  error : Option String
deriving Repr, DecidableEq

/-- Response mapping of the `create_consent` route (auth.py lines 290-315):
pending-ish statuses become `"pending"` with a generated redirect URL
embedding the request id when upstream supplied none; everything else
becomes `"success"`. -/
def consent_route_response (bank_id_lower : String) (response : ServiceConsentResult) :
    ConsentResponse :=
  let consent_id := response.consent_id
  let request_id := response.request_id
  let consent_status := response.status
  let redirect_url := response.redirect_url
  if consent_status ∈ ["pending", "awaitingAuthorization"] then
    let redirect_url :=
      if ¬ truthyS redirect_url ∧ truthyS request_id then
        some ("https://" ++ bank_id_lower
          ++ ".open.bankingapi.ru/client/consents.html?request_id=" ++ request_id.getD "")
      else redirect_url
    { status := "pending", consent_id := consent_id, request_id := request_id,
      redirect_url := redirect_url, error := none }
  else
    { status := "success", consent_id := consent_id, request_id := none,
      redirect_url := none, error := none }

/-- The consent-creation path exercised by one `POST /api/consents` call once
authentication has succeeded: the bank gateway call followed by the route's
response mapping. -/
def create_consent_endpoint (bank : String) (data : ConsentApiData) : ConsentResponse :=
  consent_route_response bank (create_consent bank data)

/-! ## Claim theorems: session token round trip (C4) -/

/-- C4 counterexample: the claim fails for an empty-string client_secret —
`encode_token` drops a falsy secret, so decoding yields no client_secret
rather than the supplied `some ""`. -/
theorem encode_decode_empty_secret_dropped :
    (decode_token (encode_token "btok" "team286" 3600 none (some "") 0 "jwtkey") "jwtkey" 10
      = .ok { claims := { access_token := "btok", client_id := "team286",
                          token_type := "bearer", expires_in := 3600, iat := 0, exp := 1800,
                          client_secret := none },
              bank_token := "btok" })
    ∧ (none : Option String) ≠ some "" :=
  ⟨rfl, by decide⟩

/-- C4 (amended): a token issued by `encode_token` and decoded with the same
key strictly before `iat + 1800` yields back the exact client_id, and the
exact client_secret when a non-empty one was supplied; decoding at or after
that instant fails with the Expired error. -/
theorem encode_decode_roundtrip (atok cid : String) (ei : Int) (bei : Option Int)
    (cs : Option String) (now d1 d2 : Int) (k : String)
    (hcs : cs ≠ some "")
    (h1 : d1 < now + 1800)
    (h2 : now + 1800 ≤ d2) :
    decode_token (encode_token atok cid ei bei cs now k) k d1
        = .ok { claims := { access_token := atok, client_id := cid, token_type := "bearer",
                            expires_in := pyOrInt bei ei, iat := now, exp := now + 1800,
                            client_secret := cs },
                bank_token := atok }
    ∧ decode_token (encode_token atok cid ei bei cs now k) k d2 = .error .expired := by
  have hsec : (if truthyS cs then cs else none) = cs := by
    cases cs with
    | none => simp [truthyS]
    | some s =>
      have hs : s ≠ "" := fun h => hcs (by rw [h])
      have hs2 : s.isEmpty = false :=
        Bool.eq_false_iff.mpr (fun h => hs ((String.isEmpty_iff s).mp h))
      simp [truthyS, hs2]
  constructor
  · simp [decode_token, encode_token, JWT_EXPIRY_MINUTES, hsec, not_le.mpr h1]
  · simp [decode_token, encode_token, JWT_EXPIRY_MINUTES, h2]

/-- C4 witness: concrete round trip and expiry at ttl boundary. -/
theorem encode_decode_roundtrip_witness :
    decode_token (encode_token "btok" "team286" 3600 none (some "s3cret") 0 "jwtkey") "jwtkey" 100
        = .ok { claims := { access_token := "btok", client_id := "team286",
                            token_type := "bearer", expires_in := pyOrInt none 3600, iat := 0,
                            exp := 0 + 1800, client_secret := some "s3cret" },
                bank_token := "btok" }
    ∧ decode_token (encode_token "btok" "team286" 3600 none (some "s3cret") 0 "jwtkey")
        "jwtkey" 1800 = .error .expired :=
  encode_decode_roundtrip "btok" "team286" 3600 none (some "s3cret") 0 100 1800 "jwtkey"
    (by decide) (by decide) (by decide)

/-! ## Claim theorems: consent creation (C1) -/

/-- C1 counterexample: with typical upstream responses, an auto-approval bank
(abank) yields route status "success", not "authorized", and the
manual-approval bank (sbank) yields "pending", not "awaiting_authorization". -/
theorem create_consent_status_words_differ :
    (create_consent_endpoint "abank"
        { consent_id := some "consent-1", id := none, request_id := none,
          status := none, redirect_uri := none }).status = "success"
    ∧ "success" ≠ "authorized"
    ∧ (create_consent_endpoint "sbank"
        { consent_id := none, id := none, request_id := some "req-abc",
          status := none, redirect_uri := none }).status = "pending"
    ∧ "pending" ≠ "awaiting_authorization" := by
  refine ⟨rfl, by decide, rfl, by decide⟩

/-- C1 (amended): when the upstream response carries no status field, an
auto-approval bank (abank/vbank) with a truthy upstream consent id yields
route status "success" with a non-empty consent_id in a single call, and the
manual-approval bank (sbank) with a non-empty request_id and no upstream
redirect_uri yields status "pending", that request_id, and a generated
redirect_url containing the request_id. -/
theorem create_consent_auto_manual (bank : String) (d : ConsentApiData) (rid : String) :
    (bank ∈ AUTO_APPROVED_BANKS → d.status = none → truthyS (pyOr d.consent_id d.id) = true →
      (create_consent_endpoint bank d).status = "success"
      ∧ truthyS (create_consent_endpoint bank d).consent_id = true)
    ∧ (d.status = none → d.request_id = some rid → rid ≠ "" → d.redirect_uri = none →
      d.consent_id = none → d.id = none →
      (create_consent_endpoint "sbank" d).status = "pending"
      ∧ (create_consent_endpoint "sbank" d).request_id = some rid
      ∧ ∃ url, (create_consent_endpoint "sbank" d).redirect_url = some url
          ∧ strContains url rid = true) := by
  constructor
  · intro hauto hst hcid
    have hnotpending : (if bank ∈ AUTO_APPROVED_BANKS then "approved" else "pending")
        = "approved" := by simp [hauto]
    constructor
    · simp [create_consent_endpoint, create_consent, consent_route_response, hst,
        hnotpending, hcid]
    · simp [create_consent_endpoint, create_consent, consent_route_response, hst,
        hnotpending, hcid]
  · intro hst hrid hrne hred hcn hin
    have hsbank : ("sbank" ∈ AUTO_APPROVED_BANKS) = False := by simp [AUTO_APPROVED_BANKS]
    have hrne2 : rid.isEmpty = false :=
      Bool.eq_false_iff.mpr (fun h => hrne ((String.isEmpty_iff rid).mp h))
    have hridt : truthyS d.request_id = true := by
      rw [hrid]; simp [truthyS, hrne2]
    have hbase : create_consent "sbank" d =
        { consent_id := d.request_id, request_id := d.request_id, status := "pending",
          redirect_url := none } := by
      simp [create_consent, hsbank, hst, hred, hcn, hin, pyOr, truthyS, hrid, hrne2]
    refine ⟨?_, ?_, ?_⟩
    · simp [create_consent_endpoint, hbase, consent_route_response]
    · simp [create_consent_endpoint, hbase, consent_route_response, hrid]
    · refine ⟨"https://sbank.open.bankingapi.ru/client/consents.html?request_id=" ++ rid,
        ?_, strContains_append_self _ _⟩
      simp [create_consent_endpoint, hbase, consent_route_response, truthyS, hrne2, hrid]

/-- C1 witness: concrete auto-approval and manual-approval runs. -/
theorem create_consent_auto_manual_witness :
    ((create_consent_endpoint "abank"
        { consent_id := some "consent-1", id := none, request_id := none,
          status := none, redirect_uri := none }).status = "success"
      ∧ truthyS (create_consent_endpoint "abank"
          { consent_id := some "consent-1", id := none, request_id := none,
            status := none, redirect_uri := none }).consent_id = true)
    ∧ ((create_consent_endpoint "sbank"
          { consent_id := none, id := none, request_id := some "req-abc",
            status := none, redirect_uri := none }).status = "pending"
      ∧ (create_consent_endpoint "sbank"
          { consent_id := none, id := none, request_id := some "req-abc",
            status := none, redirect_uri := none }).request_id = some "req-abc"
      ∧ ∃ url, (create_consent_endpoint "sbank"
          { consent_id := none, id := none, request_id := some "req-abc",
            status := none, redirect_uri := none }).redirect_url = some url
          ∧ strContains url "req-abc" = true) :=
  ⟨(create_consent_auto_manual "abank"
      { consent_id := some "consent-1", id := none, request_id := none,
        status := none, redirect_uri := none } "req-abc").1
      (by decide) rfl (by decide),
   (create_consent_auto_manual "sbank"
      { consent_id := none, id := none, request_id := some "req-abc",
        status := none, redirect_uri := none } "req-abc").2
      rfl rfl (by decide) rfl rfl rfl⟩

/-! ## Consent revocation (bank_service.py lines 601-672, auth.py lines 837-880) -/

/-- A row of the persisted `Consent` table (fields the revoke path touches). -/
structure Consent where
  bank_name : String
  client_id : String
  consent_id : String
  request_id : Option String
  status : String
deriving Repr, DecidableEq

abbrev ConsentDB := List Consent

/-- Upstream `DELETE /account-consents/{id}` outcome: a status code with the
response text and optional JSON body, or a transport failure. -/
inductive RevokeUpstream where
  | resp (statusCode : Nat) (bodyText : String) (jsonBody : Option Json)
  | requestError
deriving Repr

/-- `session.exec(select(...)).first()` + update: mark the first row matching
this consent_id and bank as revoked. -/
def markRevokedFirst : ConsentDB → String → String → ConsentDB
  | [], _, _ => []
  | c :: rest, cid, bank =>
    if c.consent_id = cid ∧ c.bank_name = bank then { c with status := "revoked" } :: rest
    else c :: markRevokedFirst rest cid bank

/-- The route's post-success update: mark the first row matching this
consent_id (any bank) as revoked. -/
def markRevokedAnyBank : ConsentDB → String → ConsentDB
  | [], _ => []
  | c :: rest, cid =>
    if c.consent_id = cid then { c with status := "revoked" } :: rest
    else c :: markRevokedAnyBank rest cid

/-- The route's 404 handler: `session.delete` of the first row matching this
consent_id. -/
def deleteFirstByConsentId : ConsentDB → String → ConsentDB
  | [], _ => []
  | c :: rest, cid => if c.consent_id = cid then rest else c :: deleteFirstByConsentId rest cid

/-- `BankService.revoke_consent` (lines 601-672): upstream 404 raises
HTTPException 404; other error statuses become HTTPException via
`raise_for_status`; success marks the first matching local row revoked and
returns the response body (or the default success dict). -/
def revoke_consent (bank : String) (db : ConsentDB) (consent_id : String)
    (u : RevokeUpstream) : Except PyExc Json × ConsentDB :=
  match u with
  | .requestError => (.error (.http 503 "Ошибка соединения с банком"), db)
  | .resp sc bodyText jsonBody =>
    if sc = 404 then (.error (.http 404 "Согласие не найдено"), db)
    else if 400 ≤ sc then (.error (.http sc ("Ошибка банка: " ++ bodyText)), db)
    else
      let db2 := markRevokedFirst db consent_id bank
      let data := jsonBody.getD (Json.obj
        [("status", Json.str "revoked"), ("message", Json.str "Согласие успешно отозвано")])
      (.ok data, db2)

/-- The "treated as already revoked" test of the route's HTTPException
handler (auth.py line 842). -/
def is_not_found_exc (statusCode : Nat) (detail : String) : Bool :=
  strContains (pyLower detail) "не найден" || strContains (pyLower detail) "not found"
    || strContains (toString statusCode) "404"

/-- The route's revoke response body, reduced to the fields the claims read. -/
structure RevokeResp where
  status : String
  deleted : Bool
deriving Repr, DecidableEq

/-- The bank-call section of the `DELETE /api/consents/{id}` route (auth.py
lines 837-880): on success mark the row revoked and answer success; on an
HTTPException matching the not-found test delete the local row and still
answer success; otherwise re-raise. -/
def revoke_consent_route (bank : String) (consent_id : String) (db : ConsentDB)
    (u : RevokeUpstream) : Except PyExc RevokeResp × ConsentDB :=
  match revoke_consent bank db consent_id u with
  | (.ok _, db1) =>
    (.ok { status := "success", deleted := false }, markRevokedAnyBank db1 consent_id)
  | (.error (.http c d), db1) =>
    if is_not_found_exc c d then
      (.ok { status := "success", deleted := true }, deleteFirstByConsentId db1 consent_id)
    else (.error (.http c d), db1)
  | (.error (.other _), db1) =>
    (.error (.http 500 "Ошибка при отзыве согласия"), db1)

/-- Number of rows carrying a given consent_id. -/
def countCid (db : ConsentDB) (cid : String) : Nat :=
  (db.filter (fun c => c.consent_id = cid)).length

theorem countCid_markRevokedFirst (db : ConsentDB) (cid bank qid : String) :
    countCid (markRevokedFirst db cid bank) qid = countCid db qid := by
  induction db with
  | nil => rfl
  | cons c rest ih =>
    by_cases h : c.consent_id = cid ∧ c.bank_name = bank
    · simp only [markRevokedFirst, if_pos h]
      simp [countCid, List.filter, h.1]
      split <;> simp
    · simp only [markRevokedFirst, if_neg h]
      simp [countCid, List.filter] at ih ⊢
      split <;> simp [ih]

theorem countCid_markRevokedAnyBank (db : ConsentDB) (cid qid : String) :
    countCid (markRevokedAnyBank db cid) qid = countCid db qid := by
  induction db with
  | nil => rfl
  | cons c rest ih =>
    by_cases h : c.consent_id = cid
    · simp only [markRevokedAnyBank, if_pos h]
      simp [countCid, List.filter, h]
      split <;> simp
    · simp only [markRevokedAnyBank, if_neg h]
      simp [countCid, List.filter] at ih ⊢
      split <;> simp [ih]

theorem find_eq_none_of_countCid_zero (db : ConsentDB) (cid : String)
    (h : countCid db cid = 0) :
    db.find? (fun c => c.consent_id = cid) = none := by
  induction db with
  | nil => rfl
  | cons c rest ih =>
    by_cases hc : c.consent_id = cid
    · exfalso
      simp [countCid, List.filter, hc] at h
    · simp [countCid, List.filter, hc] at h
      simp [List.find?, hc, ih (by simpa [countCid] using h)]

theorem find_delete_eq_none (db : ConsentDB) (cid : String)
    (h : countCid db cid ≤ 1) :
    (deleteFirstByConsentId db cid).find? (fun c => c.consent_id = cid) = none := by
  induction db with
  | nil => rfl
  | cons c rest ih =>
    by_cases hc : c.consent_id = cid
    · have h2 : countCid rest cid + 1 ≤ 1 := by
        simpa [countCid, List.filter, hc] using h
      have hrest : countCid rest cid = 0 := by omega
      simpa [deleteFirstByConsentId, hc] using find_eq_none_of_countCid_zero rest cid hrest
    · have hrest : countCid rest cid ≤ 1 := by
        simpa [countCid, List.filter, hc] using h
      simp [deleteFirstByConsentId, hc, List.find?, ih hrest]

/-! ## Claim theorems: idempotent revoke (C3) -/

/-- C3: revoking the same consent twice never errors the second time: with
the upstream answering success first and 404 second, the first call revokes
and answers success, and the second call still answers success (with
`deleted = true`) and leaves no local row with that consent_id, provided the
table held at most one such row. -/
theorem revoke_consent_twice_idempotent (bank cid : String) (db : ConsentDB)
    (sc : Nat) (bodyText : String) (jb : Option Json) (body2 : String) (jb2 : Option Json)
    (hsc404 : sc ≠ 404) (hsc : sc < 400)
    (hcount : countCid db cid ≤ 1) :
    (revoke_consent_route bank cid db (.resp sc bodyText jb)).1
        = .ok { status := "success", deleted := false }
    ∧ (revoke_consent_route bank cid
        (revoke_consent_route bank cid db (.resp sc bodyText jb)).2
        (.resp 404 body2 jb2)).1 = .ok { status := "success", deleted := true }
    ∧ ((revoke_consent_route bank cid
        (revoke_consent_route bank cid db (.resp sc bodyText jb)).2
        (.resp 404 body2 jb2)).2).find? (fun c => c.consent_id = cid) = none := by
  have hnotge : ¬ (400 ≤ sc) := by omega
  have h1 : revoke_consent_route bank cid db (.resp sc bodyText jb)
      = (.ok { status := "success", deleted := false },
         markRevokedAnyBank (markRevokedFirst db cid bank) cid) := by
    simp [revoke_consent_route, revoke_consent, hsc404, hnotge]
  have hnf : is_not_found_exc 404 "Согласие не найдено" = true := by decide
  have h2 : revoke_consent_route bank cid
      (markRevokedAnyBank (markRevokedFirst db cid bank) cid) (.resp 404 body2 jb2)
      = (.ok { status := "success", deleted := true },
         deleteFirstByConsentId (markRevokedAnyBank (markRevokedFirst db cid bank) cid) cid) := by
    simp [revoke_consent_route, revoke_consent, hnf]
  have hcount2 : countCid (markRevokedAnyBank (markRevokedFirst db cid bank) cid) cid ≤ 1 := by
    rw [countCid_markRevokedAnyBank, countCid_markRevokedFirst]
    exact hcount
  refine ⟨by rw [h1], ?_, ?_⟩
  · rw [h1]
    simp [h2]
  · rw [h1]
    simp only [h2]
    exact find_delete_eq_none _ _ hcount2

/-- C3 witness: a concrete two-call revoke run. -/
theorem revoke_consent_twice_idempotent_witness :
    (revoke_consent_route "abank" "consent-7"
        [⟨"abank", "team286-1", "consent-7", none, "approved"⟩] (.resp 200 "" none)).1
        = .ok { status := "success", deleted := false }
    ∧ (revoke_consent_route "abank" "consent-7"
        (revoke_consent_route "abank" "consent-7"
          [⟨"abank", "team286-1", "consent-7", none, "approved"⟩] (.resp 200 "" none)).2
        (.resp 404 "Consent not found" none)).1
        = .ok { status := "success", deleted := true }
    ∧ ((revoke_consent_route "abank" "consent-7"
        (revoke_consent_route "abank" "consent-7"
          [⟨"abank", "team286-1", "consent-7", none, "approved"⟩] (.resp 200 "" none)).2
        (.resp 404 "Consent not found" none)).2).find?
          (fun c => c.consent_id = "consent-7") = none :=
  revoke_consent_twice_idempotent "abank" "consent-7"
    [⟨"abank", "team286-1", "consent-7", none, "approved"⟩]
    200 "" none "Consent not found" none (by decide) (by decide) (by decide)

/-! ## Transaction listing with cache (accounts.py lines 21-29, 136-166, 254-317) -/

/-- A transaction dict restricted to the keys `_filter_transactions` reads. -/
structure Tx where
  amount : Option Rat
  date : Option String
  txid : String
deriving Repr, DecidableEq

def digitVal (c : Char) : Option Nat :=
  if c.isDigit then some (c.toNat - 48) else none

/-- `datetime.fromisoformat` on the `YYYY-MM-DD` date strings this API uses,
yielding a totally ordered encoding; any other string raises (`none`). -/
def parse_iso_date (s : String) : Option Nat :=
  match s.toList with
  | [y1, y2, y3, y4, '-', m1, m2, '-', d1, d2] =>
    match digitVal y1, digitVal y2, digitVal y3, digitVal y4,
        digitVal m1, digitVal m2, digitVal d1, digitVal d2 with
    | some a, some b, some c, some d, some e, some f, some g, some h =>
      let y := ((a * 10 + b) * 10 + c) * 10 + d
      let m := e * 10 + f
      let dd := g * 10 + h
      if 1 ≤ m ∧ m ≤ 12 ∧ 1 ≤ dd ∧ dd ≤ 31 then some (y * 10000 + m * 100 + dd) else none
    | _, _, _, _, _, _, _, _ => none
  | _ => none

/-- The amount clause of the filter comprehension (accounts.py lines 145-149). -/
def amount_ok (tx : Tx) (min_amount max_amount : Option Rat) : Bool :=
  (match min_amount with
   | none => true
   | some m => decide (m ≤ tx.amount.getD 0))
  && (match max_amount with
   | none => true
   | some m => decide (tx.amount.getD 0 ≤ m))

/-- The date clause of the filter comprehension (lines 156-160), with Python
short-circuit evaluation; parsing a transaction date raises `ValueError`,
modelled by the error case. -/
def date_clause (dfrom dto : Option Nat) (tx : Tx) : Except Unit Bool := do
  let c1 ← match dfrom with
    | none => pure true
    | some d =>
      match parse_iso_date (tx.date.getD "") with
      | none => throw ()
      | some t => pure (decide (d ≤ t))
  if c1 = false then pure false
  else match dto with
    | none => pure true
    | some d =>
      match parse_iso_date (tx.date.getD "") with
      | none => throw ()
      | some t => pure (decide (t ≤ d))

/-- The date-filter list comprehension: the whole comprehension raises as
soon as one element raises. -/
def filter_by_dates (dfrom dto : Option Nat) : List Tx → Except Unit (List Tx)
  | [] => pure []
  | t :: rest => do
    let keep ← date_clause dfrom dto t
    let tail ← filter_by_dates dfrom dto rest
    pure (if keep then t :: tail else tail)

/-- accounts.py `_filter_transactions` (lines 136-166): amount filter first,
then the date filter inside try/except — a `ValueError` anywhere skips the
date filtering entirely. -/
def _filter_transactions (transactions : List Tx) (min_amount max_amount : Option Rat)
    (date_from date_to : Option String) : List Tx :=
  let filtered :=
    if min_amount.isSome || max_amount.isSome then
      transactions.filter (fun tx => amount_ok tx min_amount max_amount)
    else transactions
  if truthyS date_from || truthyS date_to then
    let attempt : Except Unit (List Tx) := do
      let dfrom ← match date_from with
        | none => pure none
        | some s =>
          if s.isEmpty then pure none
          else match parse_iso_date s with
            | none => throw ()
            | some d => pure (some d)
      let dto ← match date_to with
        | none => pure none
        | some s =>
          if s.isEmpty then pure none
          else match parse_iso_date s with
            | none => throw ()
            | some d => pure (some d)
      filter_by_dates dfrom dto filtered
    match attempt with
    | .ok l => l
    | .error _ => filtered
  else filtered

/-- The value stored under the cache key: the normalized dict from
`BankService.get_transactions`, restricted to its `transactions` list. -/
structure TxData where
  transactions : List Tx
deriving Repr, DecidableEq

structure TxCacheEntry where
  data : TxData
  timestamp : Int
deriving Repr, DecidableEq

/-- The module-level `_tx_cache` dictionary. -/
abbrev TxCache := List (String × TxCacheEntry)

def txCacheLookup (c : TxCache) (k : String) : Option TxCacheEntry :=
  (c.find? (fun p => p.1 == k)).map (·.2)

def txCacheInsert (c : TxCache) (k : String) (v : TxCacheEntry) : TxCache :=
  (k, v) :: c.filter (fun p => p.1 ≠ k)

theorem txCacheLookup_insert (c : TxCache) (k : String) (v : TxCacheEntry) :
    txCacheLookup (txCacheInsert c k v) k = some v := by
  simp [txCacheLookup, txCacheInsert, List.find?]

/-- Default `TX_CACHE_TTL_MINUTES` (accounts.py line 21). -/
def TX_CACHE_TTL_MINUTES : Int := 15

/-- The response dict of `GET /v1/transactions`. -/
structure TxResponse where
  transactions : List Tx
  from_cache : Bool
  cache_age_seconds : Option Int
deriving Repr, DecidableEq

/-- The cache-and-fetch section of the `list_transactions` route (accounts.py
lines 254-317), after authentication: consult `_tx_cache` under the
`bank:client` key, serve a fresh hit filtered; otherwise make one upstream
call, store the wholesale result, and return it filtered with
`from_cache = false`.  The third component counts upstream calls. -/
def list_transactions (cache : TxCache) (bank_name client_id : String) (now : Int)
    (min_amount max_amount : Option Rat) (from_date to_date : Option String)
    (upstream : Except PyExc TxData) :
    Except PyExc TxResponse × TxCache × Nat :=
  let key := bank_name ++ ":" ++ client_id
  let freshHit : Option TxCacheEntry :=
    match txCacheLookup cache key with
    | some e => if now - e.timestamp < TX_CACHE_TTL_MINUTES * 60 then some e else none
    | none => none
  match freshHit with
  | some e =>
    (.ok { transactions :=
             _filter_transactions e.data.transactions min_amount max_amount from_date to_date,
           from_cache := true, cache_age_seconds := some (now - e.timestamp) }, cache, 0)
  | none =>
    match upstream with
    | .error e => (.error e, cache, 1)
    | .ok d =>
      (.ok { transactions :=
               _filter_transactions d.transactions min_amount max_amount from_date to_date,
             from_cache := false, cache_age_seconds := none },
       txCacheInsert cache key { data := d, timestamp := now }, 1)

/-! ## Claim theorems: transaction cache (C6) -/

/-- C6: after a miss-and-fetch at `t0`, a second fetch for the same key at
`t1` within the 15-minute TTL — with any amount/date filter parameters and
whatever the upstream would answer — returns `from_cache = true` with
`cache_age_seconds = t1 - t0 ≥ 0`, serves the cached list through
`_filter_transactions`, makes no upstream call, and leaves the cache
unchanged; a fetch at `t2` at or past the TTL returns `from_cache = false`
and makes exactly one new upstream call. -/
theorem list_transactions_cache_ttl (cache : TxCache) (bank client : String)
    (t0 t1 t2 : Int) (d d3 : TxData)
    (mn1 mx1 mn2 mx2 mn3 mx3 : Option Rat) (f1 g1 f2 g2 f3 g3 : Option String)
    (u2 : Except PyExc TxData)
    (hmiss : txCacheLookup cache (bank ++ ":" ++ client) = none)
    (h01 : t0 ≤ t1) (hfresh : t1 - t0 < 900) (hstale : 900 ≤ t2 - t0) :
    (list_transactions cache bank client t0 mn1 mx1 f1 g1 (.ok d)).1
        = .ok { transactions := _filter_transactions d.transactions mn1 mx1 f1 g1,
                from_cache := false, cache_age_seconds := none }
    ∧ (list_transactions cache bank client t0 mn1 mx1 f1 g1 (.ok d)).2.2 = 1
    ∧ (list_transactions
        (list_transactions cache bank client t0 mn1 mx1 f1 g1 (.ok d)).2.1
        bank client t1 mn2 mx2 f2 g2 u2).1
        = .ok { transactions := _filter_transactions d.transactions mn2 mx2 f2 g2,
                from_cache := true, cache_age_seconds := some (t1 - t0) }
    ∧ 0 ≤ t1 - t0
    ∧ (list_transactions
        (list_transactions cache bank client t0 mn1 mx1 f1 g1 (.ok d)).2.1
        bank client t1 mn2 mx2 f2 g2 u2).2
        = ((list_transactions cache bank client t0 mn1 mx1 f1 g1 (.ok d)).2.1, 0)
    ∧ (list_transactions
        (list_transactions cache bank client t0 mn1 mx1 f1 g1 (.ok d)).2.1
        bank client t2 mn3 mx3 f3 g3 (.ok d3)).1
        = .ok { transactions := _filter_transactions d3.transactions mn3 mx3 f3 g3,
                from_cache := false, cache_age_seconds := none }
    ∧ (list_transactions
        (list_transactions cache bank client t0 mn1 mx1 f1 g1 (.ok d)).2.1
        bank client t2 mn3 mx3 f3 g3 (.ok d3)).2.2 = 1 := by
  have h1 : list_transactions cache bank client t0 mn1 mx1 f1 g1 (.ok d)
      = (.ok { transactions := _filter_transactions d.transactions mn1 mx1 f1 g1,
               from_cache := false, cache_age_seconds := none },
         txCacheInsert cache (bank ++ ":" ++ client) { data := d, timestamp := t0 }, 1) := by
    simp [list_transactions, hmiss]
  have hl : txCacheLookup (txCacheInsert cache (bank ++ ":" ++ client)
      { data := d, timestamp := t0 }) (bank ++ ":" ++ client)
      = some { data := d, timestamp := t0 } := txCacheLookup_insert ..
  refine ⟨by rw [h1], by rw [h1], ?_, by omega, ?_, ?_, ?_⟩ <;> rw [h1]
  · simp [list_transactions, hl, TX_CACHE_TTL_MINUTES, hfresh]
  · simp [list_transactions, hl, TX_CACHE_TTL_MINUTES, hfresh]
  · simp [list_transactions, hl, TX_CACHE_TTL_MINUTES, not_lt.mpr hstale]
  · simp [list_transactions, hl, TX_CACHE_TTL_MINUTES, not_lt.mpr hstale]

/-- C6 witness: concrete fresh-hit and post-TTL runs. -/
theorem list_transactions_cache_ttl_witness :
    (list_transactions [] "vbank" "team286-1" 1000 none none none none
        (.ok ⟨[⟨some 10, some "2025-01-15", "t1"⟩]⟩)).1
        = .ok { transactions :=
                  _filter_transactions [⟨some 10, some "2025-01-15", "t1"⟩] none none none none,
                from_cache := false, cache_age_seconds := none }
    ∧ (list_transactions [] "vbank" "team286-1" 1000 none none none none
        (.ok ⟨[⟨some 10, some "2025-01-15", "t1"⟩]⟩)).2.2 = 1
    ∧ (list_transactions
        (list_transactions [] "vbank" "team286-1" 1000 none none none none
          (.ok ⟨[⟨some 10, some "2025-01-15", "t1"⟩]⟩)).2.1
        "vbank" "team286-1" 1500 (some 5) none none none
        (.error (.http 503 "down"))).1
        = .ok { transactions :=
                  _filter_transactions [⟨some 10, some "2025-01-15", "t1"⟩]
                    (some 5) none none none,
                from_cache := true, cache_age_seconds := some (1500 - 1000) }
    ∧ (0 : Int) ≤ 1500 - 1000
    ∧ (list_transactions
        (list_transactions [] "vbank" "team286-1" 1000 none none none none
          (.ok ⟨[⟨some 10, some "2025-01-15", "t1"⟩]⟩)).2.1
        "vbank" "team286-1" 1500 (some 5) none none none
        (.error (.http 503 "down"))).2
        = ((list_transactions [] "vbank" "team286-1" 1000 none none none none
            (.ok ⟨[⟨some 10, some "2025-01-15", "t1"⟩]⟩)).2.1, 0)
    ∧ (list_transactions
        (list_transactions [] "vbank" "team286-1" 1000 none none none none
          (.ok ⟨[⟨some 10, some "2025-01-15", "t1"⟩]⟩)).2.1
        "vbank" "team286-1" 2000 none none none none
        (.ok ⟨[]⟩)).1
        = .ok { transactions := _filter_transactions [] none none none none,
                from_cache := false, cache_age_seconds := none }
    ∧ (list_transactions
        (list_transactions [] "vbank" "team286-1" 1000 none none none none
          (.ok ⟨[⟨some 10, some "2025-01-15", "t1"⟩]⟩)).2.1
        "vbank" "team286-1" 2000 none none none none
        (.ok ⟨[]⟩)).2.2 = 1 :=
  list_transactions_cache_ttl [] "vbank" "team286-1" 1000 1500 2000
    ⟨[⟨some 10, some "2025-01-15", "t1"⟩]⟩ ⟨[]⟩
    none none (some 5) none none none none none none none none none
    (.error (.http 503 "down")) rfl (by decide) (by decide) (by decide)
/-! ## Tax payment execution (tax_payments.py lines 202-474)

The route's bank-authentication call (line 286) passes a `bank_id` keyword
argument to `auth_service.authenticate_with_bank`, whose signature
(auth_service.py line 168) accepts only `client_id` and `client_secret`:
the call raises `TypeError` deterministically, before any upstream request.
The remainder of the body — accounts fetch, payment-consent creation, the
pending-approval check, the `processing` commit, and the submission-status
mapping (lines 426-443) — is unreachable; lines 377 and 385 would in any
case raise `ValueError`, since `models/tax_payment.py` declares no
`account_identification` or `payment_request_id` field. -/

/-- A `TaxPayment` row, restricted to the fields the reachable `pay_tax`
path touches (the model declares no `account_identification` or
`payment_request_id`). -/
structure TaxPayment where
  status : String
  user_id : Option String
  tax_amount : Rat
  payment_purpose : String
  bank_name : Option String
  account_id : Option String
  consent_id : Option String
  payment_id : Option String
  payment_date : Option Int
  error_message : Option String
deriving Repr, DecidableEq

/-- The generic-exception handler's update (lines 461-467 and 734-740). -/
def mark_failed (tp : TaxPayment) (msg : String) : TaxPayment :=
  { tp with status := "failed", error_message := some msg }

structure PayTaxReq where
  account_id : String
  bank_name : String
  consent_id : Option String
deriving Repr, DecidableEq

/-- Outcome of the JWT decode inside `pay_tax` (the client_secret claim);
the external calls after it are never reached. -/
structure PayEnv where
  decode : Except PyExc (Option String)
deriving Repr

/-- The route's normalized JSON response shapes (never built: every run
raises before a response is assembled). -/
inductive PayResp where
  | pendingApproval (redirect_url : Option String) (request_id : Option String)
  | success (payment_id : Option String) (consent_id : String) (payment_status : String)
deriving Repr, DecidableEq

/-- The keys of `BankService.BANK_URLS`, checked in its constructor. -/
def VALID_BANKS : List String := ["abank", "sbank", "vbank"]

/-- The `ValueError` message of `BankService.__init__` (line 51). -/
def invalid_bank_msg (bank : String) : String :=
  "Invalid bank name: " ++ bank ++ ". Must be one of: ['abank', 'sbank', 'vbank']"

/-- The `TypeError` message raised at tax_payments.py line 286. -/
def TYPE_ERROR_BANK_ID : String :=
  "authenticate_with_bank() got an unexpected keyword argument 'bank_id'"

/-- The body of the `pay_tax` route inside its try block (lines 225-453):
record lookup, the already-paid guard, the BankService constructor, the JWT
decode, then the bank-authentication call, which raises `TypeError`
(unexpected keyword argument `bank_id`) before any upstream request is made.
Returns the raw result (exceptions unhandled), the pair (in-memory record,
last-committed record), and the number of upstream calls attempted. -/
def pay_tax_body (record : Option TaxPayment) (req : PayTaxReq) (env : PayEnv)
    (_now : Int) : Except PyExc PayResp × (Option TaxPayment × Option TaxPayment) × Nat :=
  match record with
  | none => (.error (.http 404 "Налоговый платёж не найден"), (none, none), 0)
  | some tp0 =>
    if tp0.status = "paid" then
      (.error (.http 400 "Налог уже оплачен"), (some tp0, some tp0), 0)
    else if pyLower req.bank_name ∉ VALID_BANKS then
      (.error (.other (invalid_bank_msg req.bank_name)), (some tp0, some tp0), 0)
    else
      match env.decode with
      | .error _ =>
        (.error (.http 401 "Недействительный токен авторизации"), (some tp0, some tp0), 0)
      | .ok cs =>
        if ¬ truthyS cs then
          (.error (.http 401 "Недействительный токен авторизации"), (some tp0, some tp0), 0)
        else
          (.error (.other TYPE_ERROR_BANK_ID), (some tp0, some tp0), 0)

structure PayOutcome where
  result : Except PyExc PayResp
  db : Option TaxPayment
  calls : Nat
deriving Repr

/-- The whole `pay_tax` route handler (lines 202-474): the body wrapped by
`except HTTPException: raise` (record left at its last committed state) and
`except Exception` (record re-fetched, marked failed with the captured
message, committed, then HTTP 500). -/
def pay_tax (record : Option TaxPayment) (req : PayTaxReq) (env : PayEnv)
    (_now : Int) : PayOutcome :=
  match pay_tax_body record req env _now with
  | (.ok v, (_, db), calls) => { result := .ok v, db := db, calls := calls }
  | (.error (.http c d), (_, db), calls) =>
    { result := .error (.http c d), db := db, calls := calls }
  | (.error (.other m), (mem, _), calls) =>
    { result := .error (.http 500 ("Ошибка при оплате налога: " ++ m)),
      db := mem.map (fun t => mark_failed t m), calls := calls }

/-! ## Claim theorems: payment status mapping (C7), failure marking (C8),
already-paid guard (C9) -/

/-- A pending tax-payment fixture. -/
def tpPending : TaxPayment :=
  { status := "pending", user_id := some "team286-1", tax_amount := 4500,
    payment_purpose := "Оплата налога", bank_name := none, account_id := none,
    consent_id := none, payment_id := none, payment_date := none, error_message := none }

/-- The same record already paid. -/
def tpPaid : TaxPayment := { tpPending with status := "paid" }

def reqAbank : PayTaxReq :=
  { account_id := "acc-1", bank_name := "abank", consent_id := some "consent-1" }

def reqBadBank : PayTaxReq :=
  { account_id := "acc-1", bank_name := "zbank", consent_id := none }

/-- A run whose token decode succeeds with a non-empty client secret. -/
def envDecodeOk : PayEnv := { decode := .ok (some "s3cret") }

/-- C7: the submission-status mapping of lines 426-443 is dead code — on
every request that passes the guards (existing non-paid record, valid bank,
decodable token carrying a non-empty client secret), the bank-authentication
call at line 286 raises `TypeError` (its `bank_id` keyword does not exist in
`authenticate_with_bank`), so `pay_tax` persists status "failed" with that
message and makes zero upstream calls: the persisted status is never derived
from an upstream submission status. -/
theorem pay_tax_typeerror_before_submission (tp : TaxPayment) (req : PayTaxReq)
    (cs : String) (now : Int)
    (hnp : tp.status ≠ "paid")
    (hb : pyLower req.bank_name ∈ VALID_BANKS)
    (hcs : cs ≠ "") :
    (pay_tax (some tp) req { decode := .ok (some cs) } now).result
        = .error (.http 500 ("Ошибка при оплате налога: " ++ TYPE_ERROR_BANK_ID))
    ∧ (pay_tax (some tp) req { decode := .ok (some cs) } now).db
        = some (mark_failed tp TYPE_ERROR_BANK_ID)
    ∧ (mark_failed tp TYPE_ERROR_BANK_ID).status = "failed"
    ∧ (pay_tax (some tp) req { decode := .ok (some cs) } now).calls = 0 := by
  have hcs2 : cs.isEmpty = false :=
    Bool.eq_false_iff.mpr (fun h => hcs ((String.isEmpty_iff cs).mp h))
  have hcst : truthyS (some cs) = true := by simp [truthyS, hcs2]
  refine ⟨?_, ?_, rfl, ?_⟩ <;> simp [pay_tax, pay_tax_body, hnp, hb, hcst]

/-- C7 witness: a concrete valid payment request. -/
theorem pay_tax_typeerror_before_submission_witness :
    (pay_tax (some tpPending) reqAbank { decode := .ok (some "s3cret") } 50).result
        = .error (.http 500 ("Ошибка при оплате налога: " ++ TYPE_ERROR_BANK_ID))
    ∧ (pay_tax (some tpPending) reqAbank { decode := .ok (some "s3cret") } 50).db
        = some (mark_failed tpPending TYPE_ERROR_BANK_ID)
    ∧ (mark_failed tpPending TYPE_ERROR_BANK_ID).status = "failed"
    ∧ (pay_tax (some tpPending) reqAbank { decode := .ok (some "s3cret") } 50).calls = 0 :=
  pay_tax_typeerror_before_submission tpPending reqAbank "s3cret" 50
    (by decide) (by decide) (by decide)

/-- C8 counterexample: an HTTPException raised during the payment sequence —
the 401 from a failing token decode — is re-raised by
`except HTTPException: raise`, leaving the persisted record at the
non-terminal status "pending" with no error message rather than marking it
failed. -/
theorem pay_tax_http_exception_leaves_pending :
    (pay_tax (some tpPending) reqAbank
        { decode := .error (.other "jwt.ExpiredSignatureError") } 50).result
      = .error (.http 401 "Недействительный токен авторизации")
    ∧ ((pay_tax (some tpPending) reqAbank
        { decode := .error (.other "jwt.ExpiredSignatureError") } 50).db.map
        TaxPayment.status) = some "pending"
    ∧ ((pay_tax (some tpPending) reqAbank
        { decode := .error (.other "jwt.ExpiredSignatureError") } 50).db.map
        TaxPayment.error_message) = some none
    ∧ "pending" ≠ "failed" :=
  ⟨rfl, rfl, rfl, by decide⟩

/-- C8 (amended): every exception other than a FastAPI HTTPException raised
during the payment sequence marks the persisted record failed with the
message captured verbatim and surfaces as HTTP 500 carrying that message;
HTTPExceptions re-raise, leaving the record at its last committed state. -/
theorem pay_tax_other_exception_marks_failed (record : Option TaxPayment)
    (req : PayTaxReq) (env : PayEnv) (now : Int) (m : String) (t : TaxPayment)
    (dbc : Option TaxPayment) (calls : Nat)
    (h : pay_tax_body record req env now = (.error (.other m), (some t, dbc), calls)) :
    (pay_tax record req env now).result
        = .error (.http 500 ("Ошибка при оплате налога: " ++ m))
    ∧ (pay_tax record req env now).db = some (mark_failed t m)
    ∧ (mark_failed t m).status = "failed"
    ∧ (mark_failed t m).error_message = some m := by
  refine ⟨?_, ?_, rfl, rfl⟩ <;> simp [pay_tax, h]

/-- C8 witness: a `ValueError` from the BankService constructor (invalid bank
name) marks the record failed with that message verbatim. -/
theorem pay_tax_other_exception_marks_failed_witness :
    (pay_tax (some tpPending) reqBadBank envDecodeOk 50).result
        = .error (.http 500 ("Ошибка при оплате налога: " ++ invalid_bank_msg "zbank"))
    ∧ (pay_tax (some tpPending) reqBadBank envDecodeOk 50).db
        = some (mark_failed tpPending (invalid_bank_msg "zbank"))
    ∧ (mark_failed tpPending (invalid_bank_msg "zbank")).status = "failed"
    ∧ (mark_failed tpPending (invalid_bank_msg "zbank")).error_message
        = some (invalid_bank_msg "zbank") :=
  pay_tax_other_exception_marks_failed (some tpPending) reqBadBank envDecodeOk 50
    (invalid_bank_msg "zbank") tpPending (some tpPending) 0 rfl

/-- C9: paying a tax whose record is already "paid" fails with HTTP 400
before any upstream call, leaving the persisted record (status, payment_id,
payment_date and all other fields) unchanged. -/
theorem pay_tax_already_paid_guard (tp : TaxPayment) (req : PayTaxReq) (env : PayEnv)
    (now : Int) (h : tp.status = "paid") :
    (pay_tax (some tp) req env now).result = .error (.http 400 "Налог уже оплачен")
    ∧ (pay_tax (some tp) req env now).db = some tp
    ∧ (pay_tax (some tp) req env now).calls = 0 := by
  refine ⟨?_, ?_, ?_⟩ <;> simp [pay_tax, pay_tax_body, h]

/-- C9 witness: a concrete already-paid record. -/
theorem pay_tax_already_paid_guard_witness :
    (pay_tax (some tpPaid) reqAbank envDecodeOk 50).result
        = .error (.http 400 "Налог уже оплачен")
    ∧ (pay_tax (some tpPaid) reqAbank envDecodeOk 50).db = some tpPaid
    ∧ (pay_tax (some tpPaid) reqAbank envDecodeOk 50).calls = 0 :=
  pay_tax_already_paid_guard tpPaid reqAbank envDecodeOk 50 rfl

end SyntaxBackend
